import Mathlib

/-!
Verification development for the sedge `cli` command
(`cli/cli.go`) together with the environment template
`templates/envs/goerli/env_base.tmpl` shown in the repository docs.

Pure Go helpers and collaborator packages that are not part of the
sources at hand (`utils`, `configs`, `generate`, the sync tracker)
are modelled from the specification; each such definition carries a
doc comment starting with `Modelled from the spec:`.
-/

namespace Sedge

/-- Errors surfaced by the cli command.  Constructors mirror the
`configs.*Error` values used in `cli/cli.go`; those carrying data keep
the arguments that the Go code formats into the message. -/
inductive Err
  | runClientsFlagAmbiguous (services : List String)
  | runClients (given allowed : String)
  | unknownNetwork (network : String)
  | invalidFeeRecipient
  | invalidLogging (flag : String)
  | clientsProviderError
  | validateClientsError
  | dependenciesError
  | jwtSecretError
  | feePromptError
  | generateError
  | cleanError
  | tekuDatadirError
  | runContainersError
  | runScriptError
  | trackSyncFatal
  | runValidatorError
  | validatorScriptError
  deriving Repr, DecidableEq

/-- The cli command's flag state (the package-level variables of
`cli/cli.go` bound by `init`), as read after flag parsing. -/
structure Config where
  executionName : String
  executionImage : String
  consensusName : String
  consensusImage : String
  validatorName : String
  validatorImage : String
  generationPath : String
  checkpointSyncUrl : String
  network : String
  feeRecipient : String
  jwtPath : String
  graffiti : String
  mevImage : String
  install : Bool
  run : Bool
  y : Bool
  services : List String
  fallbackEL : List String
  elExtraFlags : List String
  clExtraFlags : List String
  vlExtraFlags : List String
  mapAllPorts : Bool
  noMev : Bool
  noValidator : Bool
  loggingFlag : String
  deriving Repr, DecidableEq

/-- The role names of `cli/cli.go`:
`execution, consensus, validator = "execution", "consensus", "validator"`. -/
def execution : String := "execution"

/-- See `execution`. -/
def consensus : String := "consensus"

/-- See `execution`. -/
def validator : String := "validator"

/-- Go helper `utils.Contains` for string slices: membership test. -/
def contains (xs : List String) (s : String) : Bool := xs.contains s

/-- Go helper `utils.ContainsOnly`: every element of `xs` occurs in `allowed`. -/
def containsOnly (xs allowed : List String) : Bool := xs.all (fun s => allowed.contains s)

/-- Modelled from the spec: `utils.SupportedNetworks` (not under the
sources at hand).  The docs name Ethereum Mainnet, Gnosis Chain and the
active testnets Sepolia, Goerli and Chiado as the supported networks. -/
def supportedNetworks : List String := ["mainnet", "goerli", "sepolia", "gnosis", "chiado"]

/-- A hexadecimal digit. -/
def isHexDigitChar (c : Char) : Bool :=
  c.isDigit || ('a' ≤ c && c ≤ 'f') || ('A' ≤ c && c ≤ 'F')

/-- Modelled from the spec: `utils.IsAddress` — the fee recipient is a
20-byte Ethereum address in hexadecimal format (`0x` + 40 hex digits). -/
def isAddress (s : String) : Bool :=
  match s.data with
  | '0' :: 'x' :: rest => (rest.length == 40) && rest.all isHexDigitChar
  | _ => false

/-- Modelled from the spec: `configs.ValidLoggingFlags` — the logging
flag accepts the docker json driver or `none`. -/
def validLoggingFlags : List String := ["json", "none"]

/-- Modelled from the spec: `configs.GetLoggingDriver` — maps the
`none` flag to the empty driver, otherwise keeps the flag value. -/
def getLoggingDriver (flag : String) : String := if flag == "none" then "" else flag

/-- Modelled from the spec: `configs.NetworksConfigs[network].RequireJWT`.
Post-merge networks require the engine-API JWT secret; the docs show
`RequireJWT: true` for Sepolia and the merge networks. -/
def requireJWT (network : String) : Bool :=
  contains ["mainnet", "goerli", "sepolia"] network

/-- Go `strings.Split(s, ":")` followed by taking `parts[0]` and
`strings.Join(parts[1:], ":")`, as done for the custom-image syntax
`<CLIENT>:<DOCKER_IMAGE>` in `preRunCliCmd`. -/
def splitImage (s : String) : String × String :=
  match s.splitOn ":" with
  | [] => (s, "")
  | n :: rest => (n, String.intercalate ":" rest)

/-- The quick-run block of `preRunCliCmd` (cli.go:104-106): the yes flag
turns on both install and run. -/
def quickRunStep (cfg : Config) : Config :=
  if cfg.y then { cfg with install := true, run := true } else cfg

/-- The run-clients validation block of `preRunCliCmd` (cli.go:108-127):
`all`/`none` must appear alone (`all` expands to the three roles,
`none` empties the list), any other content must draw from
{execution, consensus, validator}. -/
def validateServicesStep (cfg : Config) : Except Err Config :=
  if contains cfg.services "all" then
    if cfg.services.length == 1 then
      Except.ok { cfg with services := [execution, consensus, validator] }
    else
      Except.error (Err.runClientsFlagAmbiguous cfg.services)
  else if contains cfg.services "none" then
    if cfg.services.length == 1 then
      Except.ok { cfg with services := [] }
    else
      Except.error (Err.runClientsFlagAmbiguous cfg.services)
  else if !containsOnly cfg.services [execution, consensus, validator] then
    Except.error (Err.runClients (String.intercalate "," cfg.services)
      (String.intercalate "," [execution, consensus, validator]))
  else
    Except.ok cfg

/-- The validator exclusion of `preRunCliCmd` (cli.go:128-133): with
`--no-validator`, the validator service is filtered out of the
run-clients list. -/
def filterValidatorStep (cfg : Config) : Config :=
  if cfg.noValidator && contains cfg.services validator then
    { cfg with services := cfg.services.filter (fun s => s != validator) }
  else cfg

/-- The network validation of `preRunCliCmd` (cli.go:134-142). -/
def networkStep (cfg : Config) : Except Err Config :=
  if !contains supportedNetworks cfg.network then
    Except.error (Err.unknownNetwork cfg.network)
  else
    Except.ok cfg

/-- The fee-recipient validation of `preRunCliCmd` (cli.go:144-147). -/
def feeRecipientStep (cfg : Config) : Except Err Config :=
  if cfg.feeRecipient != "" && !isAddress cfg.feeRecipient then
    Except.error Err.invalidFeeRecipient
  else
    Except.ok cfg

/-- The custom-image preparation of `preRunCliCmd` (cli.go:149-164). -/
def splitClientFieldsStep (cfg : Config) : Config :=
  let cfg :=
    if cfg.executionName != "" then
      let p := splitImage cfg.executionName
      { cfg with executionName := p.1, executionImage := p.2 }
    else cfg
  let cfg :=
    if cfg.consensusName != "" then
      let p := splitImage cfg.consensusName
      { cfg with consensusName := p.1, consensusImage := p.2 }
    else cfg
  if cfg.validatorName != "" then
    let p := splitImage cfg.validatorName
    { cfg with validatorName := p.1, validatorImage := p.2 }
  else cfg

/-- The logging flag validation of `preRunCliCmd` (cli.go:166-168). -/
def loggingStep (cfg : Config) : Except Err Config :=
  if !contains validLoggingFlags cfg.loggingFlag then
    Except.error (Err.invalidLogging cfg.loggingFlag)
  else
    Except.ok cfg

/-- The function `preRunCliCmd` (cli.go:102-171): the pre-run validation
pipeline. -/
def preRunCliCmd (cfg : Config) : Except Err Config :=
  match validateServicesStep (quickRunStep cfg) with
  | Except.error e => Except.error e
  | Except.ok c1 =>
    match networkStep (filterValidatorStep c1) with
    | Except.error e => Except.error e
    | Except.ok c2 =>
      match feeRecipientStep c2 with
      | Except.error e => Except.error e
      | Except.ok c3 => loggingStep (splitClientFieldsStep c3)

/-- The struct `clients.Client` (fields used by `cli/cli.go`): client name, docker
image override and the `Omited` flag marking a role absent from the
deployment. -/
structure ClientSpec where
  name : String
  image : String
  omited : Bool
  deriving Repr, DecidableEq

/-- The struct `clients.Clients`, the value returned by `validateClients`: one
client per role. -/
structure CombinedClients where
  execution : ClientSpec
  consensus : ClientSpec
  validator : ClientSpec
  deriving Repr, DecidableEq

/-- The struct `generate.GenerationData` restricted to the fields assigned in
`runCliCmd` (cli.go:246-264), plus `relayURLs`.  Modelled from the
spec: the generate package (not under the sources at hand) feeds the
env template a `.RelayURL` value joined from the user-supplied relay
URL list; the quick-start cli command supplies none, so `runCliCmd`
leaves the list empty. -/
structure GenerationData where
  executionClient : ClientSpec
  consensusClient : ClientSpec
  validatorClient : ClientSpec
  generationPath : String
  network : String
  checkpointSyncUrl : String
  feeRecipient : String
  jwtSecretPath : String
  graffiti : String
  fallbackELUrls : List String
  elExtraFlags : List String
  clExtraFlags : List String
  vlExtraFlags : List String
  mapAllPorts : Bool
  mev : Bool
  mevImage : String
  loggingDriver : String
  relayURLs : List String
  deriving Repr, DecidableEq

/-- Terminal outcome of the Sync Tracker's polling loop. -/
inductive SyncOutcome
  | synced
  | timedOut
  | monitorFailed
  deriving Repr, DecidableEq

/-- Modelled from the spec: `trackSync` (the Sync Tracker, not under
the sources at hand).  "Transition polling→timed-out: deadline elapses
with at least one endpoint not yet synced; terminal, reported to caller
as a warning, not a fatal error"; only a non-recoverable monitoring
condition is an error.  Hence a timeout yields no error value. -/
def trackSync : SyncOutcome → Option Err
  | SyncOutcome.synced => none
  | SyncOutcome.timedOut => none
  | SyncOutcome.monitorFailed => some Err.trackSyncFatal

deriving instance DecidableEq for Except

/-- Outcomes of the external collaborators invoked by `runCliCmd`
(client catalog, dependency installer, prompts, generate package,
container runtime, sync monitor).  These are out-of-scope subsystems
with fixed interfaces; one `Ext` value fixes their behaviour for a
run. -/
structure Ext where
  clientsErrors : List Err
  validateClientsRes : Except Err CombinedClients
  depsRes : Option Err
  jwtGenRes : Except Err String
  feePromptRes : Except Err String
  generateRes : Option Err
  cleanRes : Option Err
  tekuRes : Option Err
  runRes : Option Err
  scriptRes : Option Err
  userRunsScript : Bool
  syncOutcome : SyncOutcome
  runValidatorRes : Option Err
  validatorScriptRes : Option Err
  userRunsValidator : Bool
  deriving Repr, DecidableEq

/-- Unix `filepath.IsAbs`: the path begins with a slash. -/
def isAbs (p : String) : Bool :=
  match p.data with
  | [] => false
  | c :: _ => c == '/'

/-- Go `filepath.Abs` as invoked at cli.go:228: the branch guard ensures
the argument is already absolute, where `Abs` is the identity (up to
lexical cleaning, irrelevant for the properties below). -/
def filepathAbs (p : String) : String := p

/-- JWT handling of `runCliCmd` (cli.go:222-231): generate a secret
when none was supplied and the network requires one; otherwise, if the
supplied path is absolute, normalize it; a relative path passes
through untouched.  Returns the `jwtPath` in effect afterwards. -/
def jwtStep (cfg : Config) (ext : Ext) : Except Err String :=
  if cfg.jwtPath == "" && requireJWT cfg.network then
    ext.jwtGenRes
  else if isAbs cfg.jwtPath then
    Except.ok (filepathAbs cfg.jwtPath)
  else
    Except.ok cfg.jwtPath

/-- Fee-recipient prompt of `runCliCmd` (cli.go:234-238): prompt only
when not running with `--yes` and no fee recipient was given.  Returns
the `feeRecipient` in effect afterwards. -/
def feeStep (cfg : Config) (ext : Ext) : Except Err String :=
  if !cfg.y && cfg.feeRecipient == "" then
    ext.feePromptRes
  else
    Except.ok cfg.feeRecipient

/-- cli.go:240-243: copy the image overrides onto the combined clients
and mark the validator omitted exactly when `--no-validator` is set. -/
def setClientFields (cfg : Config) (c : CombinedClients) : CombinedClients :=
  { execution := { c.execution with image := cfg.executionImage }
    consensus := { c.consensus with image := cfg.consensusImage }
    validator := { c.validator with image := cfg.validatorImage, omited := cfg.noValidator } }

/-- The `generate.GenerationData` literal of cli.go:246-264.  MEV is
enabled only when neither `--no-mev-boost` nor `--no-validator` is
set (`Mev: !noMev && !noValidator`). -/
def buildGenerationData (cfg : Config) (cc : CombinedClients) (jwt fee : String) :
    GenerationData :=
  { executionClient := cc.execution
    consensusClient := cc.consensus
    validatorClient := cc.validator
    generationPath := cfg.generationPath
    network := cfg.network
    checkpointSyncUrl := cfg.checkpointSyncUrl
    feeRecipient := fee
    jwtSecretPath := jwt
    graffiti := cfg.graffiti
    fallbackELUrls := cfg.fallbackEL
    elExtraFlags := cfg.elExtraFlags
    clExtraFlags := cfg.clExtraFlags
    vlExtraFlags := cfg.vlExtraFlags
    mapAllPorts := cfg.mapAllPorts
    mev := !cfg.noMev && !cfg.noValidator
    mevImage := cfg.mevImage
    loggingDriver := getLoggingDriver cfg.loggingFlag
    relayURLs := [] }

/-- Observable outcome of one `runCliCmd` invocation: the returned
error list, the generation data handed to `generate.GenerateScripts`
(if reached), whether generation completed, and every container
started through the runtime. -/
structure RunTrace where
  errs : List Err
  gd : Option GenerationData
  generated : Bool
  started : List String
  deriving Repr, DecidableEq

/-- First half of `runCliCmd` (cli.go:189-238): clients lookup, client
validation, dependency loop, JWT handling and fee-recipient prompt —
everything before the generation data is built.  Yields the combined
clients, the effective JWT path and the effective fee recipient. -/
def runPhase1 (cfg : Config) (ext : Ext) : Except (List Err) (CombinedClients × String × String) :=
  if !ext.clientsErrors.isEmpty then
    Except.error ext.clientsErrors
  else
    match ext.validateClientsRes with
    | Except.error e => Except.error [e]
    | Except.ok combined =>
      match ext.depsRes with
      | some e => Except.error [e]
      | none =>
        match jwtStep cfg ext with
        | Except.error e => Except.error [e]
        | Except.ok jwt =>
          match feeStep cfg ext with
          | Except.error e => Except.error [e]
          | Except.ok fee => Except.ok (combined, jwt, fee)

/-- Second half of `runCliCmd` (cli.go:265-336), starting at the
`generate.GenerateScripts` call: generation, cleanup, the
`--run-clients=none` early exit, teku datadir preparation, container
start (or the interactive script prompt) and — unless the validator is
omitted or already among the run clients — sync tracking followed by
the validator start.  `cc` are the combined clients after the field
copies of cli.go:240-243 and `gd` the generation data built from
them. -/
def runPhase2 (cfg : Config) (ext : Ext) (cc : CombinedClients) (gd : GenerationData) :
    RunTrace :=
  match ext.generateRes with
  | some e => { errs := [e], gd := some gd, generated := false, started := [] }
  | none =>
    match ext.cleanRes with
    | some e => { errs := [e], gd := some gd, generated := true, started := [] }
    | none =>
      if cfg.services.isEmpty then
        { errs := [], gd := some gd, generated := true, started := [] }
      else
        match (if cc.consensus.name == "teku" then ext.tekuRes else none) with
        | some e => { errs := [e], gd := some gd, generated := true, started := [] }
        | none =>
          match
            (if cfg.run then
              match ext.runRes with
              | some e => Except.error e
              | none => Except.ok cfg.services
            else
              match ext.scriptRes with
              | some e => Except.error e
              | none =>
                Except.ok (if ext.userRunsScript then cfg.services else [])) with
          | Except.error e =>
            { errs := [e], gd := some gd, generated := true, started := [] }
          | Except.ok started1 =>
            if cfg.noValidator then
              { errs := [], gd := some gd, generated := true, started := started1 }
            else if contains cfg.services validator then
              { errs := [], gd := some gd, generated := true, started := started1 }
            else
              match trackSync ext.syncOutcome with
              | some e =>
                { errs := [e], gd := some gd, generated := true, started := started1 }
              | none =>
                match
                  (if cfg.run then
                    match ext.runValidatorRes with
                    | some e => Except.error e
                    | none => Except.ok [validator]
                  else
                    match ext.validatorScriptRes with
                    | some e => Except.error e
                    | none =>
                      Except.ok
                        (if ext.userRunsValidator then [validator] else [])) with
                | Except.error e =>
                  { errs := [e], gd := some gd, generated := true, started := started1 }
                | Except.ok started2 =>
                  { errs := [], gd := some gd, generated := true,
                    started := started1 ++ started2 }

/-- The function `runCliCmd` (cli.go:173-337) over the collaborator outcomes
`ext`. -/
def runCliCmd (cfg : Config) (ext : Ext) : RunTrace :=
  match runPhase1 cfg ext with
  | Except.error es => { errs := es, gd := none, generated := false, started := [] }
  | Except.ok (combined, jwt, fee) =>
    let cc := setClientFields cfg combined
    runPhase2 cfg ext cc (buildGenerationData cfg cc jwt fee)

/-- The whole command: `PreRun` runs `preRunCliCmd` and aborts the
process on error (`log.Fatal`), so `runCliCmd` executes only after a
successful pre-run. -/
def cliCmd (cfg : Config) (ext : Ext) : Except Err RunTrace :=
  match preRunCliCmd cfg with
  | Except.error e => Except.error e
  | Except.ok cfg' => Except.ok (runCliCmd cfg' ext)

/-- Go `strings.Join(urls, ",")` as used to build relay-URL values.
Modelled from the spec: the generate package joins URL sequences by
comma. -/
def joinComma : List String → String
  | [] => ""
  | [u] => u
  | u :: rest => u ++ "," ++ joinComma rest

/-- The relay URL hard-coded as the `{{else}}` default of
`templates/envs/goerli/env_base.tmpl` (shown in the repository docs). -/
def defaultRelayURL : String :=
  "https://0xafa4c6985aa049fb79dd37010438cfebeb0f2bd42b115b89dd678dab0670c1de38da0c4e9138c9290a398ecd9a0b3110@builder-relay-goerli.flashbots.net"

/-- Modelled from the spec: the Network Registry's `defaultRelayURLs`
ordered sequence for the template's network; the template's default
branch emits exactly this registry list joined by comma. -/
def defaultRelayURLs : List String := [defaultRelayURL]

/-- The value of the RELAY_URL variable per `env_base.tmpl`:
`{{if .RelayURL}}{{.RelayURL}}{{else}}<default>{{end}}` where
`.RelayURL` is the user-supplied relay list joined by comma. -/
def relayURLValue (urls : List String) : String :=
  if joinComma urls == "" then defaultRelayURL else joinComma urls

/-- Modelled from the spec: the per-role client env fragment
(`templates/envs/[network]/[client]`, not under the sources at hand)
contributes role-specific variables for each non-omitted role; only
the MEV feature fragment contributes a relay variable. -/
def roleEntries (tag : String) (c : ClientSpec) : List (String × String) :=
  if c.omited then []
  else [(tag ++ "_CLIENT", c.name), (tag ++ "_IMAGE_VERSION", c.image)]

/-- The composed environment document as an ordered key-value list,
following `env_base.tmpl`: the NETWORK variable, then — only when MEV
is enabled — the RELAY_URL variable, then the per-role fragments in
template order (execution, consensus, validator). -/
def envEntries (gd : GenerationData) : List (String × String) :=
  ("NETWORK", "goerli") ::
    ((if gd.mev then [("RELAY_URL", relayURLValue gd.relayURLs)] else [])
      ++ roleEntries "EC" gd.executionClient
      ++ roleEntries "CC" gd.consensusClient
      ++ roleEntries "VL" gd.validatorClient)

/-- Serialized environment document: one `KEY=VALUE` line per entry. -/
def envDocument (gd : GenerationData) : List String :=
  (envEntries gd).map (fun e => e.1 ++ "=" ++ e.2)

/-- Modelled from the spec: the container-orchestration manifest —
one service block per non-omitted role plus, when MEV is enabled, the
mev-boost service block; stable names, deterministic order. -/
def manifestDocument (gd : GenerationData) : List String :=
  (if gd.executionClient.omited then [] else ["execution:", "  image: " ++ gd.executionClient.image])
    ++ (if gd.consensusClient.omited then [] else ["consensus:", "  image: " ++ gd.consensusClient.image])
    ++ (if gd.validatorClient.omited then [] else ["validator:", "  image: " ++ gd.validatorClient.image])
    ++ (if gd.mev then ["mev-boost:", "  image: " ++ gd.mevImage] else [])

/-- The composition step of `generate.GenerateScripts`: the pair of
documents produced for a generation data value. -/
def generateDocs (gd : GenerationData) : List String × List String :=
  (envDocument gd, manifestDocument gd)

/-- Modelled from the spec: a line removed by the cleanup pass —
an environment line matching the pattern `KEY=` (non-empty key,
empty value). -/
def isEmptyAssignment (l : String) : Bool :=
  match l.splitOn "=" with
  | [k, v] => k != "" && v == ""
  | _ => false

/-- Cleanup pass, first half: drop the `KEY=` lines. -/
def removeEmptyAssignments (d : List String) : List String :=
  d.filter (fun l => !isEmptyAssignment l)

/-- Cleanup pass, second half: collapse consecutive blank lines to at
most one. -/
def collapseBlanks : List String → List String
  | [] => []
  | [l] => [l]
  | l₁ :: l₂ :: rest =>
    if l₁ == "" && l₂ == "" then collapseBlanks (l₂ :: rest)
    else l₁ :: collapseBlanks (l₂ :: rest)

/-- Modelled from the spec: the cleanup pass applied to one document —
"removes environment lines matching the pattern KEY= (value empty) and
collapses consecutive blank lines to at most one". -/
def cleanDoc (d : List String) : List String :=
  collapseBlanks (removeEmptyAssignments d)

/-- Modelled from the spec: `generate.CleanGenerated` — the cleanup
pass applied identically to both generated documents. -/
def cleanGenerated (p : List String × List String) : List String × List String :=
  (cleanDoc p.1, cleanDoc p.2)

/-- No two consecutive blank lines (invariant established by
`collapseBlanks`). -/
def noDoubleBlank : List String → Bool
  | [] => true
  | [_] => true
  | l₁ :: l₂ :: rest => !(l₁ == "" && l₂ == "") && noDoubleBlank (l₂ :: rest)

/-- Concrete client selection used by the concrete runs below. -/
def ccOk : CombinedClients :=
  { execution := { name := "nethermind", image := "", omited := false }
    consensus := { name := "prysm", image := "", omited := false }
    validator := { name := "prysm", image := "", omited := false } }

/-- Collaborator outcomes in which every external step succeeds. -/
def extOk : Ext :=
  { clientsErrors := []
    validateClientsRes := Except.ok ccOk
    depsRes := none
    jwtGenRes := Except.ok "/root/sedge-data/jwtsecret"
    feePromptRes := Except.ok ""
    generateRes := none
    cleanRes := none
    tekuRes := none
    runRes := none
    scriptRes := none
    userRunsScript := false
    syncOutcome := SyncOutcome.synced
    runValidatorRes := none
    validatorScriptRes := none
    userRunsValidator := false }

/-- A well-formed baseline flag state: mainnet, default run-clients,
valid fee recipient, absolute JWT path, quick-run mode. -/
def cfgBase : Config :=
  { executionName := "", executionImage := "", consensusName := "", consensusImage := ""
    validatorName := "", validatorImage := ""
    generationPath := "/root/sedge-data", checkpointSyncUrl := ""
    network := "mainnet"
    feeRecipient := "0xEf8801eaf234ff82801821FFe2d78D60a0237F97"
    jwtPath := "/root/jwt/secret.hex", graffiti := "", mevImage := ""
    install := true, run := true, y := true
    services := [execution, consensus]
    fallbackEL := [], elExtraFlags := [], clExtraFlags := [], vlExtraFlags := []
    mapAllPorts := false, noMev := false, noValidator := false
    loggingFlag := "json" }

/-- Baseline run with `--no-validator`. -/
def cfgNoVal : Config := { cfgBase with noValidator := true }

/-- Generation data produced by the `cfgNoVal` run. -/
def gdNoVal : GenerationData :=
  buildGenerationData cfgNoVal (setClientFields cfgNoVal ccOk) cfgNoVal.jwtPath
    cfgNoVal.feeRecipient

/-- Baseline run whose sync tracking times out. -/
def extTimeout : Ext := { extOk with syncOutcome := SyncOutcome.timedOut }

/-- Baseline flag state with a relative JWT secret path. -/
def cfgRelJwt : Config := { cfgBase with jwtPath := "jwt/secret.hex" }

/-- Generation data produced by the `cfgRelJwt` run: the relative path
flows through verbatim. -/
def gdRelJwt : GenerationData :=
  buildGenerationData cfgRelJwt (setClientFields cfgRelJwt ccOk) "jwt/secret.hex"
    cfgRelJwt.feeRecipient

/-- Baseline flag state with a malformed fee recipient. -/
def cfgBadFee : Config := { cfgBase with feeRecipient := "0x123" }

/-- Baseline flag state naming a network outside the registry. -/
def cfgBadNet : Config := { cfgBase with network := "rinkeby" }

/-- Baseline generation data (validator present, MEV on). -/
def gdBase : GenerationData :=
  buildGenerationData cfgBase (setClientFields cfgBase ccOk) cfgBase.jwtPath
    cfgBase.feeRecipient

/-- Like `gdBase` but with a user-supplied relay URL list. -/
def gdUserRelay : GenerationData := { gdBase with relayURLs := ["https://relay.example"] }

/-- Flag states exercising the run-clients flag: correct and ambiguous
uses of `all` and `none`, and the empty service list. -/
def cfgAll : Config := { cfgBase with services := ["all"] }

/-- See `cfgAll`. -/
def cfgAllBad : Config := { cfgBase with services := ["all", execution] }

/-- See `cfgAll`. -/
def cfgNone : Config := { cfgBase with services := ["none"] }

/-- See `cfgAll`. -/
def cfgNoneBad : Config := { cfgBase with services := ["none", execution] }

/-- See `cfgAll`. -/
def cfgEmpty : Config := { cfgBase with services := [] }

/-- Flag state with no-validator together with run-clients=all. -/
def cfgNoValAll : Config := { cfgBase with noValidator := true, services := ["all"] }

/-- The pre-run result of `cfgNoValAll`: `all` expands to the three
roles, then the validator is filtered out again. -/
def cfgNoValAllPost : Config := { cfgNoValAll with services := [execution, consensus] }

theorem collapseBlanks_head (ys : List String) :
    ∀ a : String, (collapseBlanks (a :: ys)).head? = some a := by
  induction ys with
  | nil => intro a; rfl
  | cons b rest ih =>
    intro a
    simp only [collapseBlanks]
    by_cases h : (a == "" && b == "") = true
    · rw [if_pos h, ih b]
      obtain ⟨ha, hb⟩ := Bool.and_eq_true_iff.mp h
      rw [eq_of_beq ha, eq_of_beq hb]
    · rw [if_neg h]
      rfl

theorem noDoubleBlank_collapseBlanks_cons (ys : List String) :
    ∀ a : String, noDoubleBlank (collapseBlanks (a :: ys)) = true := by
  induction ys with
  | nil => intro a; rfl
  | cons b rest ih =>
    intro a
    simp only [collapseBlanks]
    by_cases h : (a == "" && b == "") = true
    · rw [if_pos h]; exact ih b
    · rw [if_neg h]
      have hh := collapseBlanks_head rest b
      have hnd := ih b
      cases hcb : collapseBlanks (b :: rest) with
      | nil => rfl
      | cons c zs =>
        rw [hcb] at hh hnd
        have hc : c = b := by simpa using hh
        subst hc
        simp only [noDoubleBlank, Bool.and_eq_true]
        refine ⟨?_, hnd⟩
        simp only [Bool.not_eq_true']
        simpa using h

theorem noDoubleBlank_collapseBlanks (xs : List String) :
    noDoubleBlank (collapseBlanks xs) = true := by
  cases xs with
  | nil => rfl
  | cons a ys => exact noDoubleBlank_collapseBlanks_cons ys a

theorem collapseBlanks_of_noDoubleBlank_cons (ys : List String) :
    ∀ a : String, noDoubleBlank (a :: ys) = true → collapseBlanks (a :: ys) = a :: ys := by
  induction ys with
  | nil => intro a _; rfl
  | cons b rest ih =>
    intro a h
    simp only [noDoubleBlank, Bool.and_eq_true] at h
    obtain ⟨h1, h2⟩ := h
    simp only [collapseBlanks]
    rw [if_neg (by simp only [Bool.not_eq_true'] at h1; simp [h1])]
    rw [ih b h2]

theorem collapseBlanks_of_noDoubleBlank (xs : List String)
    (h : noDoubleBlank xs = true) : collapseBlanks xs = xs := by
  cases xs with
  | nil => rfl
  | cons a ys => exact collapseBlanks_of_noDoubleBlank_cons ys a h

theorem collapseBlanks_idem (xs : List String) :
    collapseBlanks (collapseBlanks xs) = collapseBlanks xs :=
  collapseBlanks_of_noDoubleBlank _ (noDoubleBlank_collapseBlanks xs)

theorem mem_collapseBlanks_cons (ys : List String) :
    ∀ a l : String, l ∈ collapseBlanks (a :: ys) → l ∈ a :: ys := by
  induction ys with
  | nil => intro a l h; exact h
  | cons b rest ih =>
    intro a l h
    simp only [collapseBlanks] at h
    by_cases hc : (a == "" && b == "") = true
    · rw [if_pos hc] at h
      exact List.mem_cons_of_mem a (ih b l h)
    · rw [if_neg hc] at h
      rcases List.mem_cons.mp h with h | h
      · exact h ▸ List.mem_cons_self a _
      · exact List.mem_cons_of_mem a (ih b l h)

theorem mem_collapseBlanks (xs : List String) (l : String)
    (h : l ∈ collapseBlanks xs) : l ∈ xs := by
  cases xs with
  | nil => exact h
  | cons a ys => exact mem_collapseBlanks_cons ys a l h

theorem removeEmptyAssignments_idem (d : List String) :
    removeEmptyAssignments (removeEmptyAssignments d) = removeEmptyAssignments d := by
  unfold removeEmptyAssignments
  exact List.filter_eq_self.mpr (fun _ ha => (List.mem_filter.mp ha).2)

theorem removeEmptyAssignments_collapseBlanks (d : List String) :
    removeEmptyAssignments (collapseBlanks (removeEmptyAssignments d)) =
      collapseBlanks (removeEmptyAssignments d) := by
  unfold removeEmptyAssignments
  exact List.filter_eq_self.mpr (fun a ha =>
    (List.mem_filter.mp (mem_collapseBlanks _ a ha)).2)

theorem cleanDoc_idem (d : List String) : cleanDoc (cleanDoc d) = cleanDoc d := by
  unfold cleanDoc
  rw [removeEmptyAssignments_collapseBlanks, collapseBlanks_idem]

theorem quickRunStep_shape (cfg : Config) :
    ∃ i r : Bool, quickRunStep cfg = { cfg with install := i, run := r } := by
  unfold quickRunStep
  split
  · exact ⟨true, true, rfl⟩
  · exact ⟨cfg.install, cfg.run, rfl⟩

theorem validateServicesStep_shape (cfg c : Config)
    (h : validateServicesStep cfg = Except.ok c) :
    ∃ s, c = { cfg with services := s } := by
  unfold validateServicesStep at h
  split at h
  · split at h
    · exact ⟨_, (Except.ok.inj h).symm⟩
    · simp at h
  · split at h
    · split at h
      · exact ⟨_, (Except.ok.inj h).symm⟩
      · simp at h
    · split at h
      · simp at h
      · exact ⟨cfg.services, (Except.ok.inj h).symm⟩

theorem filterValidatorStep_shape (cfg : Config) :
    ∃ s, filterValidatorStep cfg = { cfg with services := s } := by
  unfold filterValidatorStep
  split
  · exact ⟨_, rfl⟩
  · exact ⟨cfg.services, rfl⟩

theorem filterValidatorStep_no_validator (cfg : Config) (h : cfg.noValidator = true) :
    contains (filterValidatorStep cfg).services validator = false := by
  unfold filterValidatorStep
  split
  · have hnm : validator ∉ cfg.services.filter (fun s => s != validator) := by
      intro hm
      have := (List.mem_filter.mp hm).2
      simp at this
    simp [contains, hnm]
  · next hc =>
    rw [h] at hc
    simp only [Bool.true_and] at hc
    exact Bool.eq_false_iff.mpr hc

theorem networkStep_ok (cfg c : Config) (h : networkStep cfg = Except.ok c) : c = cfg := by
  unfold networkStep at h
  split at h
  · simp at h
  · exact (Except.ok.inj h).symm

theorem feeRecipientStep_ok (cfg c : Config) (h : feeRecipientStep cfg = Except.ok c) :
    c = cfg := by
  unfold feeRecipientStep at h
  split at h
  · simp at h
  · exact (Except.ok.inj h).symm

theorem splitClientFieldsStep_shape (cfg : Config) :
    ∃ en ei cn ci vn vi, splitClientFieldsStep cfg =
      { cfg with executionName := en, executionImage := ei, consensusName := cn,
                 consensusImage := ci, validatorName := vn, validatorImage := vi } := by
  simp only [splitClientFieldsStep]
  split <;> split <;> split <;> exact ⟨_, _, _, _, _, _, rfl⟩

theorem loggingStep_ok (cfg c : Config) (h : loggingStep cfg = Except.ok c) : c = cfg := by
  unfold loggingStep at h
  split at h
  · simp at h
  · exact (Except.ok.inj h).symm

theorem preRun_noValidator_services (cfg₀ cfg : Config) (h0 : cfg₀.noValidator = true)
    (h : preRunCliCmd cfg₀ = Except.ok cfg) :
    cfg.noValidator = true ∧ contains cfg.services validator = false := by
  unfold preRunCliCmd at h
  cases hv : validateServicesStep (quickRunStep cfg₀) with
  | error e => rw [hv] at h; simp at h
  | ok c1 =>
    rw [hv] at h
    dsimp only at h
    cases hn : networkStep (filterValidatorStep c1) with
    | error e => rw [hn] at h; simp at h
    | ok c2 =>
      rw [hn] at h
      dsimp only at h
      cases hf : feeRecipientStep c2 with
      | error e => rw [hf] at h; simp at h
      | ok c3 =>
        rw [hf] at h
        dsimp only at h
        have hc3 : c3 = c2 := feeRecipientStep_ok _ _ hf
        have hc2 : c2 = filterValidatorStep c1 := networkStep_ok _ _ hn
        have hcfg : cfg = splitClientFieldsStep c3 := loggingStep_ok _ _ h
        obtain ⟨en, ei, cn, ci, vn, vi, hsplit⟩ := splitClientFieldsStep_shape c3
        obtain ⟨s1, hs1⟩ := validateServicesStep_shape _ _ hv
        obtain ⟨i, r, hqr⟩ := quickRunStep_shape cfg₀
        have hc1nv : c1.noValidator = true := by
          rw [hs1, hqr]
          exact h0
        subst hc3
        subst hc2
        rw [hsplit] at hcfg
        subst hcfg
        constructor
        · show (filterValidatorStep c1).noValidator = true
          obtain ⟨s2, hfil⟩ := filterValidatorStep_shape c1
          rw [hfil]
          exact hc1nv
        · show contains (filterValidatorStep c1).services validator = false
          exact filterValidatorStep_no_validator c1 hc1nv

theorem runPhase2_gd (cfg : Config) (ext : Ext) (cc : CombinedClients)
    (gd : GenerationData) : (runPhase2 cfg ext cc gd).gd = some gd := by
  unfold runPhase2
  repeat' split
  all_goals rfl

theorem runCliCmd_gd_shape (cfg : Config) (ext : Ext) (d : GenerationData)
    (h : (runCliCmd cfg ext).gd = some d) :
    ∃ cc jwt fee, runPhase1 cfg ext = Except.ok (cc, jwt, fee) ∧
      d = buildGenerationData cfg (setClientFields cfg cc) jwt fee := by
  unfold runCliCmd at h
  cases hp : runPhase1 cfg ext with
  | error es => rw [hp] at h; simp at h
  | ok t =>
    obtain ⟨cc, jwt, fee⟩ := t
    rw [hp] at h
    dsimp only at h
    rw [runPhase2_gd] at h
    exact ⟨cc, jwt, fee, rfl, (Option.some.inj h).symm⟩

theorem runPhase1_ok_inv (cfg : Config) (ext : Ext) (cc : CombinedClients)
    (jwt fee : String) (h : runPhase1 cfg ext = Except.ok (cc, jwt, fee)) :
    ext.validateClientsRes = Except.ok cc ∧ jwtStep cfg ext = Except.ok jwt ∧
      feeStep cfg ext = Except.ok fee := by
  unfold runPhase1 at h
  split at h
  · simp at h
  · cases hv : ext.validateClientsRes with
    | error e => rw [hv] at h; simp at h
    | ok combined =>
      rw [hv] at h
      dsimp only at h
      cases hd : ext.depsRes with
      | some e => rw [hd] at h; simp at h
      | none =>
        rw [hd] at h
        dsimp only at h
        cases hj : jwtStep cfg ext with
        | error e => rw [hj] at h; simp at h
        | ok jwt' =>
          rw [hj] at h
          dsimp only at h
          cases hf : feeStep cfg ext with
          | error e => rw [hf] at h; simp at h
          | ok fee' =>
            rw [hf] at h
            dsimp only at h
            simp only [Except.ok.injEq, Prod.mk.injEq] at h
            obtain ⟨h1, h2, h3⟩ := h
            subst h1
            subst h2
            subst h3
            exact ⟨rfl, rfl, rfl⟩

theorem buildGenerationData_mev (cfg : Config) (cc : CombinedClients) (jwt fee : String) :
    (buildGenerationData cfg cc jwt fee).mev = (!cfg.noMev && !cfg.noValidator) := rfl

theorem setClientFields_validator_omited (cfg : Config) (c : CombinedClients) :
    (setClientFields cfg c).validator.omited = cfg.noValidator := rfl

theorem envEntries_lookup_relay_none (gd : GenerationData) (h : gd.mev = false) :
    (envEntries gd).lookup "RELAY_URL" = none := by
  unfold envEntries roleEntries
  rw [h]
  cases hE : gd.executionClient.omited <;> cases hC : gd.consensusClient.omited <;>
    cases hV : gd.validatorClient.omited <;>
      simp [List.lookup]

theorem envEntries_lookup_relay_mev (gd : GenerationData) (h : gd.mev = true) :
    (envEntries gd).lookup "RELAY_URL" = some (relayURLValue gd.relayURLs) := by
  unfold envEntries
  rw [h]
  rfl

theorem joinComma_ne_empty (u : String) (rest : List String) (hu : u ≠ "") :
    joinComma (u :: rest) ≠ "" := by
  cases rest with
  | nil => simpa [joinComma] using hu
  | cons r rs =>
    simp only [joinComma]
    intro hcontr
    have hlen := congrArg String.length hcontr
    rw [String.length_append, String.length_append] at hlen
    have h1 : (",").length = 1 := rfl
    have h2 : ("" : String).length = 0 := rfl
    rw [h1, h2] at hlen
    omega

theorem runPhase2_no_validator_started (cfg : Config) (ext : Ext) (cc : CombinedClients)
    (gd : GenerationData) (hnv : cfg.noValidator = true)
    (hs : contains cfg.services validator = false) :
    contains (runPhase2 cfg ext cc gd).started validator = false := by
  unfold runPhase2
  repeat' split
  all_goals try rfl
  all_goals rename_i s1 heq
  all_goals show contains s1 validator = false
  all_goals split at heq
  all_goals split at heq
  all_goals try simp at heq
  all_goals rw [← heq]
  · exact hs
  · split
    · exact hs
    · rfl

/-- C1: if the validator role is omitted (`--no-validator`), MEV-boost
is disabled regardless of the user's MEV option: the generation data's
`Mev` field is false, the composed environment holds no RELAY_URL
variable, and the downgrade is visible in the returned selection
(`Validator.Omited = true`). -/
theorem claim_C1_noValidator_forces_mev_off (cfg : Config) (ext : Ext)
    (d : GenerationData) (hnv : cfg.noValidator = true)
    (hgd : (runCliCmd cfg ext).gd = some d) :
    d.mev = false ∧ d.validatorClient.omited = true ∧
      (envEntries d).lookup "RELAY_URL" = none := by
  obtain ⟨cc, jwt, fee, hp, hd⟩ := runCliCmd_gd_shape cfg ext d hgd
  have hmev : d.mev = false := by
    rw [hd, buildGenerationData_mev, hnv]
    simp
  refine ⟨hmev, ?_, envEntries_lookup_relay_none d hmev⟩
  rw [hd]
  show (setClientFields cfg cc).validator.omited = true
  rw [setClientFields_validator_omited, hnv]

/-- Witness for C1 at a concrete no-validator run. -/
theorem claim_C1_witness :
    gdNoVal.mev = false ∧ gdNoVal.validatorClient.omited = true ∧
      (envEntries gdNoVal).lookup "RELAY_URL" = none :=
  claim_C1_noValidator_forces_mev_off cfgNoVal extOk gdNoVal rfl (by decide)

/-- C2: once generation has completed, a Sync Tracker timeout is
non-fatal: a run whose sync tracking times out is indistinguishable
from one whose endpoints synced, `trackSync` yields no error value for
a timeout, and a concrete timed-out run still succeeds with its
generation intact. -/
theorem claim_C2_sync_timeout_nonfatal :
    (∀ (cfg : Config) (ext : Ext),
      runCliCmd cfg { ext with syncOutcome := SyncOutcome.timedOut } =
        runCliCmd cfg { ext with syncOutcome := SyncOutcome.synced }) ∧
    trackSync SyncOutcome.timedOut = none ∧
    (runCliCmd cfgBase extTimeout).errs = [] ∧
    (runCliCmd cfgBase extTimeout).generated = true := by
  refine ⟨?_, rfl, by decide, by decide⟩
  intro cfg ext
  rfl

/-- C3 counterexample: a concrete run with the relative JWT path
`jwt/secret.hex` is not rejected — no `InvalidOptionError` is raised
anywhere, the run succeeds, and the relative path lands verbatim in
the generation data, contradicting the claim that option validation
fails eagerly for non-absolute JWT paths. -/
theorem claim_C3_counterexample :
    cliCmd cfgRelJwt extOk =
      Except.ok { errs := [], gd := some gdRelJwt, generated := true,
                  started := [execution, consensus, validator] } ∧
    gdRelJwt.jwtSecretPath = "jwt/secret.hex" ∧
    isAbs gdRelJwt.jwtSecretPath = false :=
  ⟨by decide, rfl, by decide⟩

/-- C3 (amended): a non-empty, non-absolute JWT path is silently
accepted: the JWT step succeeds returning the path unchanged, and any
generation data the run produces carries it verbatim (cli.go:227 only
normalizes paths that are already absolute). -/
theorem claim_C3_relative_jwt_accepted (cfg : Config) (ext : Ext) (d : GenerationData)
    (h1 : cfg.jwtPath ≠ "") (h2 : isAbs cfg.jwtPath = false)
    (hgd : (runCliCmd cfg ext).gd = some d) :
    jwtStep cfg ext = Except.ok cfg.jwtPath ∧ d.jwtSecretPath = cfg.jwtPath := by
  have hb : (cfg.jwtPath == "") = false := beq_eq_false_iff_ne.mpr h1
  have hj : jwtStep cfg ext = Except.ok cfg.jwtPath := by
    unfold jwtStep
    rw [hb, h2]
    simp
  refine ⟨hj, ?_⟩
  obtain ⟨cc, jwt, fee, hp, hd⟩ := runCliCmd_gd_shape cfg ext d hgd
  obtain ⟨_, hj', _⟩ := runPhase1_ok_inv cfg ext cc jwt fee hp
  rw [hj] at hj'
  have hjj : cfg.jwtPath = jwt := Except.ok.inj hj'
  rw [hd, ← hjj]
  rfl

/-- Witness for the amended C3 at the concrete relative-path run. -/
theorem claim_C3_witness :
    jwtStep cfgRelJwt extOk = Except.ok cfgRelJwt.jwtPath ∧
      gdRelJwt.jwtSecretPath = cfgRelJwt.jwtPath :=
  claim_C3_relative_jwt_accepted cfgRelJwt extOk gdRelJwt (by decide) (by decide) (by decide)

/-- C4: a non-empty fee recipient that fails the address format check
makes `preRunCliCmd` fail with `InvalidFeeRecipientError`, so the whole
command aborts before any generation step or file write. -/
theorem claim_C4_invalid_fee_recipient_aborts (cfg : Config) (ext : Ext) (c₁ : Config)
    (hs : validateServicesStep (quickRunStep cfg) = Except.ok c₁)
    (hn : contains supportedNetworks cfg.network = true)
    (hf1 : cfg.feeRecipient ≠ "") (hf2 : isAddress cfg.feeRecipient = false) :
    preRunCliCmd cfg = Except.error Err.invalidFeeRecipient ∧
    cliCmd cfg ext = Except.error Err.invalidFeeRecipient := by
  obtain ⟨s1, hs1⟩ := validateServicesStep_shape _ _ hs
  obtain ⟨i, r, hqr⟩ := quickRunStep_shape cfg
  obtain ⟨s2, hfil⟩ := filterValidatorStep_shape c₁
  have hnet : networkStep (filterValidatorStep c₁) =
      Except.ok (filterValidatorStep c₁) := by
    unfold networkStep
    rw [hfil, hs1, hqr]
    simp [hn]
  have hfee : feeRecipientStep (filterValidatorStep c₁) =
      Except.error Err.invalidFeeRecipient := by
    unfold feeRecipientStep
    rw [hfil, hs1, hqr]
    have hb : (cfg.feeRecipient != "") = true := bne_iff_ne.mpr hf1
    simp [hb, hf2]
  have hpre : preRunCliCmd cfg = Except.error Err.invalidFeeRecipient := by
    unfold preRunCliCmd
    rw [hs]
    dsimp only
    rw [hnet]
    dsimp only
    rw [hfee]
  exact ⟨hpre, by unfold cliCmd; rw [hpre]⟩

/-- Witness for C4 at the concrete malformed fee recipient 0x123. -/
theorem claim_C4_witness :
    preRunCliCmd cfgBadFee = Except.error Err.invalidFeeRecipient ∧
    cliCmd cfgBadFee extOk = Except.error Err.invalidFeeRecipient :=
  claim_C4_invalid_fee_recipient_aborts cfgBadFee extOk cfgBadFee rfl rfl
    (by decide) (by decide)

/-- C5: composition is deterministic — two invocations of the
generation/composition step (and of the subsequent cleanup) on equal
(selection, options) inputs yield byte-identical environment and
manifest documents; the embedding consumes no clock, randomness or
unordered collections. -/
theorem claim_C5_compose_deterministic (g₁ g₂ : GenerationData) (h : g₁ = g₂) :
    generateDocs g₁ = generateDocs g₂ ∧
      cleanGenerated (generateDocs g₁) = cleanGenerated (generateDocs g₂) := by
  subst h
  exact ⟨rfl, rfl⟩

/-- Witness for C5 at a concrete generation data value. -/
theorem claim_C5_witness :
    generateDocs gdBase = generateDocs gdBase ∧
      cleanGenerated (generateDocs gdBase) = cleanGenerated (generateDocs gdBase) :=
  claim_C5_compose_deterministic gdBase gdBase rfl

/-- C6: the cleanup pass (drop `KEY=` lines, collapse consecutive
blank lines, applied identically to both documents) is idempotent. -/
theorem claim_C6_cleanup_idempotent (env manifest : List String) :
    cleanGenerated (cleanGenerated (env, manifest)) = cleanGenerated (env, manifest) := by
  unfold cleanGenerated
  simp only [cleanDoc_idem]

/-- C7: with MEV enabled, the RELAY_URL environment variable equals
the network's default relay list joined in registry order when the
user supplied no relay URLs, and equals exactly the user's joined list
(full replacement, not append) when a non-empty list was supplied. -/
theorem claim_C7_relay_default_or_replace (gd : GenerationData) (hm : gd.mev = true) :
    (gd.relayURLs = [] →
      (envEntries gd).lookup "RELAY_URL" = some (joinComma defaultRelayURLs)) ∧
    (∀ u rest, gd.relayURLs = u :: rest → u ≠ "" →
      (envEntries gd).lookup "RELAY_URL" = some (joinComma gd.relayURLs)) := by
  have hbase := envEntries_lookup_relay_mev gd hm
  constructor
  · intro h0
    rw [hbase, h0]
    rfl
  · intro u rest hur hu
    rw [hbase, hur]
    unfold relayURLValue
    rw [beq_eq_false_iff_ne.mpr (joinComma_ne_empty u rest hu)]
    simp

/-- Witness for C7: default relay list with no user URLs, full
replacement with a user-supplied URL. -/
theorem claim_C7_witness :
    (envEntries gdBase).lookup "RELAY_URL" = some (joinComma defaultRelayURLs) ∧
    (envEntries gdUserRelay).lookup "RELAY_URL" =
      some (joinComma gdUserRelay.relayURLs) :=
  ⟨(claim_C7_relay_default_or_replace gdBase rfl).1 rfl,
   (claim_C7_relay_default_or_replace gdUserRelay rfl).2 "https://relay.example" []
     rfl (by decide)⟩

/-- C8: a network name outside the supported set makes `preRunCliCmd`
fail with an unknown-network error naming that network, so the whole
command aborts before client resolution, generation or any write. -/
theorem claim_C8_unknown_network_aborts (cfg : Config) (ext : Ext) (c₁ : Config)
    (hs : validateServicesStep (quickRunStep cfg) = Except.ok c₁)
    (hn : contains supportedNetworks cfg.network = false) :
    preRunCliCmd cfg = Except.error (Err.unknownNetwork cfg.network) ∧
    cliCmd cfg ext = Except.error (Err.unknownNetwork cfg.network) := by
  obtain ⟨s1, hs1⟩ := validateServicesStep_shape _ _ hs
  obtain ⟨i, r, hqr⟩ := quickRunStep_shape cfg
  obtain ⟨s2, hfil⟩ := filterValidatorStep_shape c₁
  have hnet : networkStep (filterValidatorStep c₁) =
      Except.error (Err.unknownNetwork cfg.network) := by
    unfold networkStep
    rw [hfil, hs1, hqr]
    simp [hn]
  have hpre : preRunCliCmd cfg = Except.error (Err.unknownNetwork cfg.network) := by
    unfold preRunCliCmd
    rw [hs]
    dsimp only
    rw [hnet]
  exact ⟨hpre, by unfold cliCmd; rw [hpre]⟩

/-- Witness for C8 at the concrete unsupported network rinkeby. -/
theorem claim_C8_witness :
    preRunCliCmd cfgBadNet = Except.error (Err.unknownNetwork "rinkeby") ∧
    cliCmd cfgBadNet extOk = Except.error (Err.unknownNetwork "rinkeby") :=
  claim_C8_unknown_network_aborts cfgBadNet extOk cfgBadNet rfl rfl

/-- C9: `all`/`none` in the run-clients flag must appear alone —
otherwise pre-run validation fails with the ambiguity error; `all`
alone expands the service list to exactly {execution, consensus,
validator}, `none` alone empties it, and with an empty service list
the run returns success right after generation without starting any
container. -/
theorem claim_C9_run_clients_flag_semantics :
    (∀ cfg : Config, contains cfg.services "all" = true → cfg.services.length ≠ 1 →
      validateServicesStep cfg = Except.error (Err.runClientsFlagAmbiguous cfg.services)) ∧
    (∀ cfg : Config, contains cfg.services "all" = false →
      contains cfg.services "none" = true → cfg.services.length ≠ 1 →
      validateServicesStep cfg = Except.error (Err.runClientsFlagAmbiguous cfg.services)) ∧
    (∀ cfg : Config, contains cfg.services "all" = true → cfg.services.length = 1 →
      validateServicesStep cfg =
        Except.ok { cfg with services := [execution, consensus, validator] }) ∧
    (∀ cfg : Config, contains cfg.services "all" = false →
      contains cfg.services "none" = true → cfg.services.length = 1 →
      validateServicesStep cfg = Except.ok { cfg with services := [] }) ∧
    (∀ (cfg : Config) (ext : Ext) (cc : CombinedClients) (jwt fee : String),
      cfg.services = [] → ext.clientsErrors = [] →
      ext.validateClientsRes = Except.ok cc → ext.depsRes = none →
      jwtStep cfg ext = Except.ok jwt → feeStep cfg ext = Except.ok fee →
      ext.generateRes = none → ext.cleanRes = none →
      (runCliCmd cfg ext).errs = [] ∧ (runCliCmd cfg ext).generated = true ∧
        (runCliCmd cfg ext).started = []) := by
  refine ⟨?_, ?_, ?_, ?_, ?_⟩
  · intro cfg h1 h2
    unfold validateServicesStep
    rw [h1]
    have hl : (cfg.services.length == 1) = false := beq_eq_false_iff_ne.mpr h2
    simp [hl]
  · intro cfg h1 h2 h3
    unfold validateServicesStep
    rw [h1, h2]
    have hl : (cfg.services.length == 1) = false := beq_eq_false_iff_ne.mpr h3
    simp [hl]
  · intro cfg h1 h2
    unfold validateServicesStep
    rw [h1]
    have hl : (cfg.services.length == 1) = true := beq_iff_eq.mpr h2
    simp [hl]
  · intro cfg h1 h2 h3
    unfold validateServicesStep
    rw [h1, h2]
    have hl : (cfg.services.length == 1) = true := beq_iff_eq.mpr h3
    simp [hl]
  · intro cfg ext cc jwt fee h0 h1 h2 h3 h4 h5 h6 h7
    have hp1 : runPhase1 cfg ext = Except.ok (cc, jwt, fee) := by
      unfold runPhase1
      rw [h1]
      simp only [List.isEmpty_nil, Bool.not_true, Bool.false_eq_true, if_false]
      rw [h2]
      dsimp only
      rw [h3]
      dsimp only
      rw [h4]
      dsimp only
      rw [h5]
    unfold runCliCmd
    rw [hp1]
    dsimp only
    unfold runPhase2
    rw [h6]
    dsimp only
    rw [h7]
    dsimp only
    rw [h0]
    simp

/-- Witness for C9: ambiguous uses error out, `all` expands, `none`
empties, and the empty-service run starts nothing. -/
theorem claim_C9_witness :
    validateServicesStep cfgAllBad =
      Except.error (Err.runClientsFlagAmbiguous cfgAllBad.services) ∧
    validateServicesStep cfgNoneBad =
      Except.error (Err.runClientsFlagAmbiguous cfgNoneBad.services) ∧
    validateServicesStep cfgAll =
      Except.ok { cfgAll with services := [execution, consensus, validator] } ∧
    validateServicesStep cfgNone = Except.ok { cfgNone with services := [] } ∧
    ((runCliCmd cfgEmpty extOk).errs = [] ∧ (runCliCmd cfgEmpty extOk).generated = true ∧
      (runCliCmd cfgEmpty extOk).started = []) :=
  ⟨claim_C9_run_clients_flag_semantics.1 cfgAllBad rfl (by decide),
   claim_C9_run_clients_flag_semantics.2.1 cfgNoneBad rfl rfl (by decide),
   claim_C9_run_clients_flag_semantics.2.2.1 cfgAll rfl rfl,
   claim_C9_run_clients_flag_semantics.2.2.2.1 cfgNone rfl rfl rfl,
   claim_C9_run_clients_flag_semantics.2.2.2.2 cfgEmpty extOk ccOk
     cfgEmpty.jwtPath cfgEmpty.feeRecipient rfl rfl rfl rfl (by decide) (by decide) rfl rfl⟩

/-- C10: after a successful pre-run with `--no-validator`, the service
list never contains the validator, and no validator container is ever
among the services started by the run. -/
theorem claim_C10_no_validator_never_started (cfg₀ cfg : Config) (ext : Ext)
    (h0 : cfg₀.noValidator = true) (h : preRunCliCmd cfg₀ = Except.ok cfg) :
    contains cfg.services validator = false ∧
    contains (runCliCmd cfg ext).started validator = false := by
  obtain ⟨hnv, hsv⟩ := preRun_noValidator_services cfg₀ cfg h0 h
  refine ⟨hsv, ?_⟩
  unfold runCliCmd
  cases hp : runPhase1 cfg ext with
  | error es => rfl
  | ok t =>
    obtain ⟨cc, jwt, fee⟩ := t
    dsimp only
    exact runPhase2_no_validator_started cfg ext _ _ hnv hsv

/-- Witness for C10: `--no-validator --run-clients=all` expands and
then filters the validator away; nothing started contains it. -/
theorem claim_C10_witness :
    contains cfgNoValAllPost.services validator = false ∧
    contains (runCliCmd cfgNoValAllPost extOk).started validator = false :=
  claim_C10_no_validator_never_started cfgNoValAll cfgNoValAllPost extOk rfl (by decide)

end Sedge
